import Mathlib

/-
Verification of the image-conditioning and embedding gateway
(`scripts/clip_http_gateway.py`, together with the older revision
`clip_http_gateway.py`).

Shallow embedding conventions:
* Backend model objects that the gateway merely dispatches on are modelled
  by boolean availability flags in a `ProviderState`; the external neural
  networks themselves are opaque oracles supplied through environment
  records.
* Images and masks are rasters: a width, a height, and a pixel function.
  Pixel channel values are abstract naturals (numpy uint8 values fit).
* Python exceptions are modelled with `Except Unit`; a fallible external
  call is an oracle returning `Except Unit _`, and a pure step that the
  source wraps in `try:` gets an explicit fault flag in the environment.
* `int(0.12 * max(W, H))` is modelled as `12 * max W H / 100` (natural
  floor division); for every image dimension below 10^12 the IEEE-double
  computation in the source agrees with this value, because the fractional
  part of `3n/25` is never closer than 0.04 to an integer.
-/

namespace Gateway

/-! ## Embedding provider chain (lifespan startup and image-encode dispatch) -/

/-- The three embedding backends, in the gateway's fixed priority order. -/
inductive Backend
  | dinov2
  | vitl14
  | grpc
deriving DecidableEq, Fintype

/-- Priority rank of a backend: lower means tried earlier. -/
def priority_index : Backend → Nat
  | Backend.dinov2 => 0
  | Backend.vitl14 => 1
  | Backend.grpc => 2

/-- The startup order `[DINOv2, ViT-L/14, GRPC client]` from `lifespan`. -/
def backend_priority : List Backend := [Backend.dinov2, Backend.vitl14, Backend.grpc]

/-- Which module-level backend globals are non-`None`
(`dinov2_model`, `clip_vitl14_model`, `clip_client`). -/
structure ProviderState where
  dinov2Model : Bool
  vitl14Model : Bool
  clipClient : Bool
deriving DecidableEq, Fintype

/-- Whether each backend's loader would succeed in the current process
environment (model weights downloadable, GRPC server reachable, ...). -/
structure StartupEnv where
  dinov2Ok : Bool
  vitl14Ok : Bool
  clipOk : Bool
deriving DecidableEq, Fintype

/-- Success of a single backend's loader in environment `e`. -/
def backend_ok (e : StartupEnv) : Backend → Bool
  | Backend.dinov2 => e.dinov2Ok
  | Backend.vitl14 => e.vitl14Ok
  | Backend.grpc => e.clipOk

/-- The `lifespan` startup chain: try DINOv2; only on failure try ViT-L/14;
only on failure try the GRPC client.  Returns the resulting global state
together with the list of backends whose loaders were actually invoked. -/
def lifespan_startup (e : StartupEnv) : ProviderState × List Backend :=
  if e.dinov2Ok then (⟨true, false, false⟩, [Backend.dinov2])
  else if e.vitl14Ok then (⟨false, true, false⟩, [Backend.dinov2, Backend.vitl14])
  else if e.clipOk then
    (⟨false, false, true⟩, [Backend.dinov2, Backend.vitl14, Backend.grpc])
  else (⟨false, false, false⟩, [Backend.dinov2, Backend.vitl14, Backend.grpc])

/-- Which backend an `/encode` request dispatches to, from the if/elif chain
of `encode_image`: DINOv2 first, then ViT-L/14, then the GRPC client. -/
def encode_image_backend (s : ProviderState) : Option Backend :=
  if s.dinov2Model then some Backend.dinov2
  else if s.vitl14Model then some Backend.vitl14
  else if s.clipClient then some Backend.grpc
  else none

/-- Spec-side: the first backend in priority order whose loader succeeds. -/
def first_success (e : StartupEnv) : Option Backend := backend_priority.find? (backend_ok e)

/-- Whether the global slot of backend `b` is populated in state `s`. -/
def state_has (s : ProviderState) : Backend → Bool
  | Backend.dinov2 => s.dinov2Model
  | Backend.vitl14 => s.vitl14Model
  | Backend.grpc => s.clipClient

/-! ## Shape normalizer (embedding extraction from heterogeneous raw results) -/

/-- A Python value as inspected by the extraction code: a numpy array
(shape plus row-major flat data), a Python list, or a plain number. -/
inductive PyVal (α : Type) where
  | arr (shape : List Nat) (data : List α)
  | lst (elems : List (PyVal α))
  | num (x : α)

mutual

/-- `np.array(v).flatten().tolist()`: row-major flattening of a value. -/
def flattenVal {α : Type} : PyVal α → List α
  | PyVal.num x => [x]
  | PyVal.arr _ d => d
  | PyVal.lst es => flattenList es

/-- Row-major flattening of a list of values. -/
def flattenList {α : Type} : List (PyVal α) → List α
  | [] => []
  | e :: es => flattenVal e ++ flattenList es

end

/-- The shape-normalizing extraction shared by `encode_text`, `encode_image`
and `encode_image_inpainted`:
rank-2 with leading dimension 1 takes row 0; rank 1 is used as-is; any other
array is flattened row-major; a non-empty list with an array head flattens
the head; anything else is flattened best-effort. -/
def extract_embedding {α : Type} : PyVal α → Option (List α)
  | PyVal.arr shape data =>
    if shape.length = 2 ∧ shape.headD 0 = 1 then some (data.take (shape.getD 1 0))
    else if shape.length = 1 then some data
    else some data
  | PyVal.lst [] => some (flattenList ([] : List (PyVal α)))
  | PyVal.lst (e :: _) =>
    match e with
    | PyVal.arr _ d => some d
    | v => some (flattenVal v)
  | PyVal.num x => some [x]

/-- The distinguishable service-level failures of the gateway endpoints. -/
inductive GatewayError
  | noEmbeddingModel
  | clipServerNotConnected
  | internalError
deriving DecidableEq

/-- The tail of every encode handler: if the extracted embedding is `None`
or empty, raise the extraction failure, otherwise return the vector. -/
def normalize_embedding {α : Type} (r : PyVal α) : Except GatewayError (List α) :=
  match extract_embedding r with
  | none => Except.error GatewayError.internalError
  | some l => if l.length = 0 then Except.error GatewayError.internalError else Except.ok l

/-! ## Rasters and mask geometry -/

/-- A decoded raster: width, height, and a pixel lookup.  Used for both
RGB images (pixel values are abstract codes) and single-channel masks. -/
structure Img where
  w : Nat
  h : Nat
  pix : Nat → Nat → Nat

/-- `PIL.Image.crop((x1, y1, x2, y2))`: the `[x1,x2) × [y1,y2)` window. -/
def cropImg (i : Img) (x1 y1 x2 y2 : Nat) : Img :=
  ⟨x2 - x1, y2 - y1, fun x y => i.pix (x1 + x) (y1 + y)⟩

/-- `resize((tw, th))` with a resampling kernel `f` (bicubic, Lanczos or
nearest) supplied as an oracle; the output always has the target size. -/
def resizeWith (f : Img → Nat → Nat → Nat → Nat → Nat) (i : Img) (tw th : Nat) : Img :=
  ⟨tw, th, fun x y => f i tw th x y⟩

/-- `filter(ImageFilter.GaussianBlur(r))` with the blur kernel `f` supplied
as an oracle; blurring preserves the raster's size. -/
def blurWith (f : Img → Nat → Nat → Nat → Nat) (i : Img) (r : Nat) : Img :=
  ⟨i.w, i.h, fun x y => f i r x y⟩

/-- `base.paste(im, (px, py), mask=m)`: pixels inside the pasted window are
blended through the alpha mask, every other pixel keeps its base value. -/
def pasteAt (blend : Nat → Nat → Nat → Nat) (base im m : Img) (px py : Nat) : Img :=
  ⟨base.w, base.h, fun x y =>
    if px ≤ x ∧ x < px + im.w ∧ py ≤ y ∧ y < py + im.h then
      blend (base.pix x y) (im.pix (x - px) (y - py)) (m.pix (x - px) (y - py))
    else base.pix x y⟩

/-- The union loop `union_mask |= (m > 0) * 255` starting from zeros. -/
def unionMasks (w h : Nat) (ms : List Img) : Img :=
  ⟨w, h, fun x y => if ms.any (fun m => decide (0 < m.pix x y)) then 255 else 0⟩

/-- Index into the edge-mode padded mask of `np.pad(m, pad, mode="edge")`:
padded position `t` reads source position `clamp(t - pad, 0, hi - 1)`. -/
def clampIndex (t pad hi : Nat) : Nat := min (hi - 1) (t - pad)

/-- The numpy fallback branch of `_dilate_mask_binary`: a `k × k` max filter
over the edge-padded binarized mask, then `(· > 0) * 255`. -/
def dilate_fallback (m : Img) (k : Nat) : Img :=
  ⟨m.w, m.h, fun x y =>
    if (List.range k).any (fun dy => (List.range k).any (fun dx =>
        decide (0 < m.pix (clampIndex (x + dx) (k / 2) m.w) (clampIndex (y + dy) (k / 2) m.h))))
    then 255 else 0⟩

/-- The `cv2.dilate` branch of `_dilate_mask_binary`: maximum of the
binarized mask over a `k × k` window anchored at `(k/2, k/2)`, positions
outside the image contributing nothing, then `(· > 0) * 255`. -/
def dilate_lib (m : Img) (k : Nat) : Img :=
  ⟨m.w, m.h, fun x y =>
    if (List.range k).any (fun dy => (List.range k).any (fun dx =>
        decide (k / 2 ≤ x + dx ∧ x + dx - k / 2 < m.w ∧ k / 2 ≤ y + dy ∧
          y + dy - k / 2 < m.h ∧ 0 < m.pix (x + dx - k / 2) (y + dy - k / 2))))
    then 255 else 0⟩

/-- `_dilate_mask_binary`: the cv2 path when the library imports, otherwise
the manual numpy max-filter fallback. -/
def dilate_mask_binary (cv2Available : Bool) (m : Img) (k : Nat) : Img :=
  if cv2Available then dilate_lib m k else dilate_fallback m k

/-- `np.where(mask > 0)`: the (x, y) positions of all foreground pixels. -/
def fgList (m : Img) : List (Nat × Nat) :=
  (List.range m.h).flatMap (fun y =>
    (List.range m.w).filterMap (fun x => if 0 < m.pix x y then some (x, y) else none))

/-- Minimum of a list of naturals (`xs.min()`; 0 for the empty list). -/
def listMin : List Nat → Nat
  | [] => 0
  | x :: xs => xs.foldl min x

/-- Maximum of a list of naturals (`xs.max()`; 0 for the empty list). -/
def listMax : List Nat → Nat
  | [] => 0
  | x :: xs => xs.foldl max x

/-- The ROI padding `int(0.12 * max(W, H))` (see the header note on the
floor-division model of the float computation). -/
def roiPad (wI hI : Nat) : Nat := 12 * max wI hI / 100

/-- The inline ROI computation of `inpaint_people_from_image_bytes`: the
tight bounding box of the mask's foreground, padded by `roiPad` on each
side and clamped to the image bounds; `none` when the mask is empty
(the `return None` of the `len(xs) == 0` check). -/
def computeROI (m : Img) (wI hI : Nat) : Option (Nat × Nat × Nat × Nat) :=
  match fgList m with
  | [] => none
  | p :: ps =>
    some (listMin ((p :: ps).map Prod.fst) - roiPad wI hI,
      listMin ((p :: ps).map Prod.snd) - roiPad wI hI,
      min wI (listMax ((p :: ps).map Prod.fst) + roiPad wI hI),
      min hI (listMax ((p :: ps).map Prod.snd) + roiPad wI hI))

/-! ## Inpainting pipeline -/

/-- Environment of `inpaint_people_from_image_bytes`: the external models
as oracles, plus fault flags that let any pure step of the `try:` blocks
raise (ROI computation, crop, resize, compositing). -/
structure InpaintEnv where
  yoloMasks : Img → List Img
  cv2Available : Bool
  sdPipeline : Bool
  sdRun : Img → Img → Except Unit Img
  resample : Img → Nat → Nat → Nat → Nat → Nat
  resampleNearest : Img → Nat → Nat → Nat → Nat → Nat
  blur : Img → Nat → Nat → Nat → Nat
  blend : Nat → Nat → Nat → Nat
  roiFault : Bool
  cropFault : Bool
  resizeFault : Bool
  composeFault : Bool

/-- Outcome of the inpainting call: the returned image (`none` is the
passthrough sentinel) and whether the Stable Diffusion pipeline was
actually invoked. -/
structure InpaintOut where
  result : Option Img
  sdInvoked : Bool

/-- The inner `try:` block guarded by `_sd_inpaint_pipeline is not None`:
ROI computation (with the early `return None` on an empty mask), crop,
resize to 512, the Stable Diffusion call, resize back, feathered paste.
`Except.error` is the exception caught by the inner `except`, `Except.ok
none` is the early function-level return, and the boolean records whether
the diffusion pipeline was invoked. -/
def sd_inner (env : InpaintEnv) (img u : Img) : Except Unit (Option Img) × Bool :=
  if env.roiFault then (Except.error (), false)
  else
    match computeROI u img.w img.h with
    | none => (Except.ok none, false)
    | some (x1, y1, x2, y2) =>
      if env.cropFault then (Except.error (), false)
      else if env.resizeFault then (Except.error (), false)
      else
        match env.sdRun (resizeWith env.resample (cropImg img x1 y1 x2 y2) 512 512)
            (resizeWith env.resampleNearest (cropImg u x1 y1 x2 y2) 512 512) with
        | Except.error e => (Except.error e, true)
        | Except.ok out512 =>
          if env.composeFault then (Except.error (), true)
          else
            (Except.ok (some (pasteAt env.blend img
              (resizeWith env.resample out512 (x2 - x1) (y2 - y1))
              (blurWith env.blur
                (resizeWith env.resample (cropImg u x1 y1 x2 y2) (x2 - x1) (y2 - y1)) 5)
              x1 y1)), true)

/-- The composite mask of the pipeline: the union of all YOLO instance
masks, dilated with kernel size 11. -/
def pipelineMask (env : InpaintEnv) (img : Img) : Img :=
  dilate_mask_binary env.cv2Available (unionMasks img.w img.h (env.yoloMasks img)) 11

/-- The body of `inpaint_people_from_image_bytes` after the image bytes
are decoded: YOLO segmentation, mask union and dilation (kernel 11), then
the Stable Diffusion ROI block; every failure path yields the passthrough
sentinel `none`. -/
def inpaint_people_from_image (env : InpaintEnv) (img : Img) : InpaintOut :=
  if (env.yoloMasks img).isEmpty then ⟨none, false⟩
  else if env.sdPipeline then
    match sd_inner env img (pipelineMask env img) with
    | (Except.ok (some composed), inv) => ⟨some composed, inv⟩
    | (Except.ok none, inv) => ⟨none, inv⟩
    | (Except.error _, inv) => ⟨none, inv⟩
  else ⟨none, false⟩

/-- Opaque uploaded request bodies. -/
def ImageBytes : Type := List Nat

/-- `inpaint_people_from_image_bytes` itself: note that the decode
`_np_image_from_bytes` happens before the `try:`, so a decoding failure
propagates to the caller instead of producing the sentinel. -/
def inpaint_people_from_image_bytes (env : InpaintEnv)
    (decode : ImageBytes → Except Unit Img) (b : ImageBytes) : Except Unit InpaintOut :=
  match decode b with
  | Except.error e => Except.error e
  | Except.ok img => Except.ok (inpaint_people_from_image env img)

/-! ## Transient-object detection filter -/

/-- One YOLO detection: COCO class id and confidence (a rational models
the float score). -/
structure Detection where
  classId : Nat
  conf : ℚ
deriving DecidableEq

/-- The `target_classes` allowlist of `_get_yolo_person_masks`: person,
backpack, umbrella, handbag, suitcase, cell phone, laptop, keyboard. -/
def target_classes : List Nat := [0, 24, 25, 26, 28, 67, 73, 76]

/-- Per-class threshold: `0.5 if class_id == 0 else 0.4`. -/
def min_confidence (classId : Nat) : ℚ := if classId = 0 then 1 / 2 else 2 / 5

/-- The keep condition of `_get_yolo_person_masks` in the newer revision:
allowlisted class and `confidence > min_confidence`. -/
def yolo_keep (d : Detection) : Bool :=
  decide (d.classId ∈ target_classes) && decide (min_confidence d.classId < d.conf)

/-- Detections kept by one `_get_yolo_person_masks` invocation. -/
def yolo_kept_detections (ds : List Detection) : List Detection := ds.filter yolo_keep

/-- The keep condition of the older revision's `_get_yolo_person_masks`:
person only, `confidence > 0.5`. -/
def yolo_keep_person_only (d : Detection) : Bool :=
  (d.classId == 0) && decide ((1 : ℚ) / 2 < d.conf)

/-! ## HTTP endpoints -/

/-- An endpoint response: the embedding list and its reported dimension. -/
structure EmbeddingResponse (α : Type) where
  embedding : List α
  dimensions : Nat

/-- `/encode/text`: rejected with the fixed 503 `CLIP server not
connected` whenever the GRPC client global is `None`, regardless of which
image backends are loaded; otherwise the GRPC result goes through the
shape normalizer and an empty extraction becomes a 500. -/
def encode_text {α : Type} (s : ProviderState) (clipResult : Except Unit (PyVal α)) :
    Except GatewayError (EmbeddingResponse α) :=
  if s.clipClient = false then Except.error GatewayError.clipServerNotConnected
  else
    match clipResult with
    | Except.error _ => Except.error GatewayError.internalError
    | Except.ok raw =>
      match normalize_embedding raw with
      | Except.error _ => Except.error GatewayError.internalError
      | Except.ok emb => Except.ok ⟨emb, emb.length⟩

/-- Per-request oracles of the image-encoding endpoints. -/
structure HttpEnv (α : Type) where
  ienv : InpaintEnv
  decode : ImageBytes → Except Unit Img
  dinoEncode : Img → Except Unit (List α)
  vitlEncode : Img → Except Unit (List α)
  clipEncode : Img → Except Unit (PyVal α)

/-- `/encode/inpainted`: 503 when no backend global is set; otherwise the
inpainting pipeline (or the original image on passthrough), then dispatch
to the best available backend; any exception inside the `try:` becomes a
500. -/
def encode_image_inpainted {α : Type} (s : ProviderState) (env : HttpEnv α) (b : ImageBytes) :
    Except GatewayError (EmbeddingResponse α) :=
  if s.dinov2Model = false ∧ s.vitl14Model = false ∧ s.clipClient = false then
    Except.error GatewayError.noEmbeddingModel
  else
    match inpaint_people_from_image_bytes env.ienv env.decode b with
    | Except.error _ => Except.error GatewayError.internalError
    | Except.ok r =>
      match (match r.result with
             | some i => Except.ok i
             | none => env.decode b : Except Unit Img) with
      | Except.error _ => Except.error GatewayError.internalError
      | Except.ok img =>
        if s.dinov2Model then
          match env.dinoEncode img with
          | Except.error _ => Except.error GatewayError.internalError
          | Except.ok v => Except.ok ⟨v, v.length⟩
        else if s.vitl14Model then
          match env.vitlEncode img with
          | Except.error _ => Except.error GatewayError.internalError
          | Except.ok v => Except.ok ⟨v, v.length⟩
        else if s.clipClient then
          match env.clipEncode (resizeWith env.ienv.resample img 224 224) with
          | Except.error _ => Except.error GatewayError.internalError
          | Except.ok raw =>
            match normalize_embedding raw with
            | Except.error _ => Except.error GatewayError.internalError
            | Except.ok emb => Except.ok ⟨emb, emb.length⟩
        else Except.error GatewayError.internalError

/-- `/encode/preprocessed`: `return await encode_image_inpainted(image)`. -/
def encode_image_preprocessed {α : Type} (s : ProviderState) (env : HttpEnv α) (b : ImageBytes) :
    Except GatewayError (EmbeddingResponse α) :=
  encode_image_inpainted s env b

/-! ## Helper lemmas -/

theorem foldl_min_le_init : ∀ (l : List Nat) (a : Nat), l.foldl min a ≤ a
  | [], _ => le_refl _
  | x :: xs, a => le_trans (foldl_min_le_init xs (min a x)) (min_le_left a x)

theorem foldl_min_le_mem : ∀ (l : List Nat) (a x : Nat), x ∈ l → l.foldl min a ≤ x
  | y :: xs, a, x, h => by
    rcases List.mem_cons.mp h with h | h
    · subst h
      exact le_trans (foldl_min_le_init xs (min a x)) (min_le_right a x)
    · exact foldl_min_le_mem xs (min a y) x h

theorem init_le_foldl_max : ∀ (l : List Nat) (a : Nat), a ≤ l.foldl max a
  | [], _ => le_refl _
  | x :: xs, a => le_trans (le_max_left a x) (init_le_foldl_max xs (max a x))

theorem mem_le_foldl_max : ∀ (l : List Nat) (a x : Nat), x ∈ l → x ≤ l.foldl max a
  | y :: xs, a, x, h => by
    rcases List.mem_cons.mp h with h | h
    · subst h
      exact le_trans (le_max_right a x) (init_le_foldl_max xs (max a x))
    · exact mem_le_foldl_max xs (max a y) x h

theorem listMin_le (l : List Nat) (x : Nat) (hx : x ∈ l) : listMin l ≤ x := by
  cases l with
  | nil => cases hx
  | cons y ys =>
    rcases List.mem_cons.mp hx with h | h
    · subst h
      exact foldl_min_le_init ys x
    · exact foldl_min_le_mem ys y x h

theorem le_listMax (l : List Nat) (x : Nat) (hx : x ∈ l) : x ≤ listMax l := by
  cases l with
  | nil => cases hx
  | cons y ys =>
    rcases List.mem_cons.mp hx with h | h
    · subst h
      exact init_le_foldl_max ys x
    · exact mem_le_foldl_max ys y x h

theorem fgList_mem (m : Img) (p : Nat × Nat) (hp : p ∈ fgList m) :
    p.1 < m.w ∧ p.2 < m.h ∧ 0 < m.pix p.1 p.2 := by
  unfold fgList at hp
  rcases List.mem_flatMap.mp hp with ⟨y, hy, hx⟩
  rcases List.mem_filterMap.mp hx with ⟨x, hxr, hxe⟩
  by_cases hpix : 0 < m.pix x y
  · rw [if_pos hpix] at hxe
    cases hxe
    exact ⟨List.mem_range.mp hxr, List.mem_range.mp hy, hpix⟩
  · rw [if_neg hpix] at hxe
    cases hxe

theorem computeROI_eq (m : Img) (wI hI : Nat) (hne : fgList m ≠ []) :
    computeROI m wI hI =
      some (listMin ((fgList m).map Prod.fst) - roiPad wI hI,
        listMin ((fgList m).map Prod.snd) - roiPad wI hI,
        min wI (listMax ((fgList m).map Prod.fst) + roiPad wI hI),
        min hI (listMax ((fgList m).map Prod.snd) + roiPad wI hI)) := by
  unfold computeROI
  cases hfg : fgList m with
  | nil => exact absurd hfg hne
  | cons p ps => rfl

theorem computeROI_le (m : Img) (wI hI x1 y1 x2 y2 : Nat) (hw : m.w = wI) (hh : m.h = hI)
    (hr : computeROI m wI hI = some (x1, y1, x2, y2)) :
    x1 ≤ x2 ∧ y1 ≤ y2 ∧ x2 ≤ wI ∧ y2 ≤ hI := by
  unfold computeROI at hr
  cases hfg : fgList m with
  | nil => rw [hfg] at hr; cases hr
  | cons p ps =>
    rw [hfg] at hr
    have hp : p ∈ fgList m := by rw [hfg]; exact List.mem_cons_self p ps
    have hb := fgList_mem m p hp
    have hx1 : p.1 ∈ (p :: ps).map Prod.fst := List.mem_map_of_mem Prod.fst (List.mem_cons_self p ps)
    have hy1 : p.2 ∈ (p :: ps).map Prod.snd := List.mem_map_of_mem Prod.snd (List.mem_cons_self p ps)
    have hminx := listMin_le _ _ hx1
    have hmaxx := le_listMax _ _ hx1
    have hminy := listMin_le _ _ hy1
    have hmaxy := le_listMax _ _ hy1
    injection hr with hr
    injection hr with h1 hr
    injection hr with h2 hr
    injection hr with h3 h4
    subst h1; subst h2; subst h3; subst h4
    rw [hw] at hb
    rw [hh] at hb
    omega

theorem dilate_fallback_superset (m : Img) (k : Nat) (hk : 1 ≤ k) (x y : Nat)
    (hx : x < m.w) (hy : y < m.h) (hp : 0 < m.pix x y) :
    (dilate_fallback m k).pix x y = 255 := by
  show (if (List.range k).any _ then 255 else 0) = 255
  rw [if_pos]
  refine List.any_eq_true.mpr ⟨k / 2, List.mem_range.mpr (Nat.div_lt_self hk one_lt_two), ?_⟩
  refine List.any_eq_true.mpr ⟨k / 2, List.mem_range.mpr (Nat.div_lt_self hk one_lt_two), ?_⟩
  refine decide_eq_true ?_
  have hcx : clampIndex (x + k / 2) (k / 2) m.w = x := by
    unfold clampIndex
    rw [Nat.add_sub_cancel]
    exact min_eq_right (Nat.le_sub_one_of_lt hx)
  have hcy : clampIndex (y + k / 2) (k / 2) m.h = y := by
    unfold clampIndex
    rw [Nat.add_sub_cancel]
    exact min_eq_right (Nat.le_sub_one_of_lt hy)
  rw [hcx, hcy]
  exact hp

theorem dilate_lib_superset (m : Img) (k : Nat) (hk : 1 ≤ k) (x y : Nat)
    (hx : x < m.w) (hy : y < m.h) (hp : 0 < m.pix x y) :
    (dilate_lib m k).pix x y = 255 := by
  show (if (List.range k).any _ then 255 else 0) = 255
  rw [if_pos]
  refine List.any_eq_true.mpr ⟨k / 2, List.mem_range.mpr (Nat.div_lt_self hk one_lt_two), ?_⟩
  refine List.any_eq_true.mpr ⟨k / 2, List.mem_range.mpr (Nat.div_lt_self hk one_lt_two), ?_⟩
  refine decide_eq_true ?_
  refine ⟨Nat.le_add_left _ _, ?_, Nat.le_add_left _ _, ?_, ?_⟩
  · rw [Nat.add_sub_cancel]; exact hx
  · rw [Nat.add_sub_cancel]; exact hy
  · rw [Nat.add_sub_cancel, Nat.add_sub_cancel]; exact hp

theorem dilate_fallback_binary (m : Img) (k x y : Nat) :
    (dilate_fallback m k).pix x y = 0 ∨ (dilate_fallback m k).pix x y = 255 := by
  show (if (List.range k).any _ then 255 else 0) = 0 ∨ (if (List.range k).any _ then 255 else 0) = 255
  by_cases hc : ((List.range k).any fun dy => (List.range k).any fun dx =>
      decide (0 < m.pix (clampIndex (x + dx) (k / 2) m.w) (clampIndex (y + dy) (k / 2) m.h))) = true
  · right; rw [if_pos hc]
  · left; rw [if_neg hc]

theorem dilate_lib_binary (m : Img) (k x y : Nat) :
    (dilate_lib m k).pix x y = 0 ∨ (dilate_lib m k).pix x y = 255 := by
  show (if (List.range k).any _ then 255 else 0) = 0 ∨ (if (List.range k).any _ then 255 else 0) = 255
  by_cases hc : ((List.range k).any fun dy => (List.range k).any fun dx =>
      decide (k / 2 ≤ x + dx ∧ x + dx - k / 2 < m.w ∧ k / 2 ≤ y + dy ∧
        y + dy - k / 2 < m.h ∧ 0 < m.pix (x + dx - k / 2) (y + dy - k / 2))) = true
  · right; rw [if_pos hc]
  · left; rw [if_neg hc]

/-- A successful inner block pins down every fault flag, the ROI, the
Stable Diffusion call and the composited output. -/
theorem sd_inner_success (env : InpaintEnv) (img u c : Img)
    (h : (sd_inner env img u).1 = Except.ok (some c)) :
    env.roiFault = false ∧ env.cropFault = false ∧ env.resizeFault = false ∧
    env.composeFault = false ∧
    ∃ x1 y1 x2 y2 out512,
      computeROI u img.w img.h = some (x1, y1, x2, y2) ∧
      env.sdRun (resizeWith env.resample (cropImg img x1 y1 x2 y2) 512 512)
        (resizeWith env.resampleNearest (cropImg u x1 y1 x2 y2) 512 512) = Except.ok out512 ∧
      c = pasteAt env.blend img
        (resizeWith env.resample out512 (x2 - x1) (y2 - y1))
        (blurWith env.blur
          (resizeWith env.resample (cropImg u x1 y1 x2 y2) (x2 - x1) (y2 - y1)) 5)
        x1 y1 := by
  unfold sd_inner at h
  by_cases h1 : env.roiFault = true
  · rw [if_pos h1] at h; cases h
  · rw [if_neg h1] at h
    cases hroi : computeROI u img.w img.h with
    | none => rw [hroi] at h; cases h
    | some roi =>
      rcases roi with ⟨x1, y1, x2, y2⟩
      rw [hroi] at h
      dsimp only at h
      by_cases h2 : env.cropFault = true
      · rw [if_pos h2] at h; cases h
      · rw [if_neg h2] at h
        by_cases h3 : env.resizeFault = true
        · rw [if_pos h3] at h; cases h
        · rw [if_neg h3] at h
          cases hrun : env.sdRun
              (resizeWith env.resample (cropImg img x1 y1 x2 y2) 512 512)
              (resizeWith env.resampleNearest (cropImg u x1 y1 x2 y2) 512 512) with
          | error e => rw [hrun] at h; cases h
          | ok out512 =>
            rw [hrun] at h
            dsimp only at h
            by_cases h4 : env.composeFault = true
            · rw [if_pos h4] at h; cases h
            · rw [if_neg h4] at h
              refine ⟨Bool.not_eq_true _ ▸ h1, Bool.not_eq_true _ ▸ h2,
                Bool.not_eq_true _ ▸ h3, Bool.not_eq_true _ ▸ h4,
                x1, y1, x2, y2, out512, rfl, hrun, ?_⟩
              injection h with h
              injection h with h
              exact h.symm

theorem resizeWith_w (f : Img → Nat → Nat → Nat → Nat → Nat) (i : Img) (tw th : Nat) :
    (resizeWith f i tw th).w = tw := rfl

theorem resizeWith_h (f : Img → Nat → Nat → Nat → Nat → Nat) (i : Img) (tw th : Nat) :
    (resizeWith f i tw th).h = th := rfl

theorem pasteAt_w (blend : Nat → Nat → Nat → Nat) (base im m : Img) (px py : Nat) :
    (pasteAt blend base im m px py).w = base.w := rfl

theorem pasteAt_h (blend : Nat → Nat → Nat → Nat) (base im m : Img) (px py : Nat) :
    (pasteAt blend base im m px py).h = base.h := rfl

theorem pasteAt_outside (blend : Nat → Nat → Nat → Nat) (base im m : Img) (px py x y : Nat)
    (hout : ¬(px ≤ x ∧ x < px + im.w ∧ py ≤ y ∧ y < py + im.h)) :
    (pasteAt blend base im m px py).pix x y = base.pix x y := by
  show (if px ≤ x ∧ x < px + im.w ∧ py ≤ y ∧ y < py + im.h then _ else _) = _
  rw [if_neg hout]

theorem pipelineMask_w (env : InpaintEnv) (img : Img) : (pipelineMask env img).w = img.w := by
  unfold pipelineMask dilate_mask_binary
  by_cases hc : env.cv2Available = true
  · rw [if_pos hc]; rfl
  · rw [if_neg hc]; rfl

theorem pipelineMask_h (env : InpaintEnv) (img : Img) : (pipelineMask env img).h = img.h := by
  unfold pipelineMask dilate_mask_binary
  by_cases hc : env.cv2Available = true
  · rw [if_pos hc]; rfl
  · rw [if_neg hc]; rfl

/-- When the composite mask has no foreground pixel, the inner block never
succeeds, never invokes the diffusion pipeline, and the flag stays false. -/
theorem sd_inner_empty (env : InpaintEnv) (img u : Img)
    (h : computeROI u img.w img.h = none) :
    sd_inner env img u = (Except.error (), false) ∨
    sd_inner env img u = (Except.ok none, false) := by
  unfold sd_inner
  by_cases h1 : env.roiFault = true
  · left; rw [if_pos h1]
  · right; rw [if_neg h1, h]

/-! ## Claim theorems -/

/-- C1: at startup the backends are tried in the fixed order DINOv2,
ViT-L/14, GRPC client; the image-encode dispatch of `encode_image` selects
exactly the first backend whose loader succeeded; precisely that backend's
global is populated; and no backend below the first success is ever
attempted. -/
theorem c1_provider_chain (e : StartupEnv) :
    encode_image_backend (lifespan_startup e).1 = first_success e ∧
    (∀ b : Backend, state_has (lifespan_startup e).1 b = true ↔ first_success e = some b) ∧
    (∀ b s : Backend, b ∈ (lifespan_startup e).2 → first_success e = some s →
      priority_index b ≤ priority_index s) := by
  revert e
  decide

/-- C1 witness: with DINOv2 failing and both ViT-L/14 and the GRPC client
loadable, the dispatch picks ViT-L/14, only its global is set, and the
attempted DINOv2 loader is not below it in priority. -/
theorem c1_provider_chain_witness :
    encode_image_backend (lifespan_startup ⟨false, true, true⟩).1 = some Backend.vitl14 ∧
    state_has (lifespan_startup ⟨false, true, true⟩).1 Backend.vitl14 = true ∧
    priority_index Backend.dinov2 ≤ priority_index Backend.vitl14 :=
  ⟨((c1_provider_chain ⟨false, true, true⟩).1).trans (by decide),
    ((c1_provider_chain ⟨false, true, true⟩).2.1 Backend.vitl14).mpr (by decide),
    (c1_provider_chain ⟨false, true, true⟩).2.2 Backend.dinov2 Backend.vitl14
      (by decide) (by decide)⟩

/-- C2: the shape normalizer returns a rank-1 array's values unchanged,
row 0 of a `[1, N]` array, the row-major flattening of any other rank-2+
array, and raises the extraction failure whenever the extracted embedding
is empty. -/
theorem c2_shape_normalizer {α : Type} :
    (∀ d : List α, d ≠ [] → normalize_embedding (PyVal.arr [d.length] d) = Except.ok d) ∧
    (∀ (n : Nat) (d : List α), d.length = n → d ≠ [] →
      normalize_embedding (PyVal.arr [1, n] d) = Except.ok d) ∧
    (∀ (shape : List Nat) (d : List α), 2 ≤ shape.length →
      ¬(shape.length = 2 ∧ shape.headD 0 = 1) → d ≠ [] →
      normalize_embedding (PyVal.arr shape d) = Except.ok d) ∧
    (∀ r : PyVal α, extract_embedding r = some [] →
      normalize_embedding r = Except.error GatewayError.internalError) := by
  refine ⟨?_, ?_, ?_, ?_⟩
  · intro d hd
    simp only [normalize_embedding, extract_embedding]
    rw [if_neg (by simp), if_pos (by simp)]
    dsimp only
    rw [if_neg (by simpa [List.length_eq_zero] using hd)]
  · intro n d hn hd
    simp only [normalize_embedding, extract_embedding]
    rw [if_pos (by simp)]
    have htake : d.take ([1, n].getD 1 0) = d := by
      show d.take n = d
      rw [← hn]
      exact List.take_length d
    rw [htake]
    dsimp only
    rw [if_neg (by simpa [List.length_eq_zero] using hd)]
  · intro shape d h2 hno hd
    simp only [normalize_embedding, extract_embedding]
    rw [if_neg hno, if_neg (by omega)]
    dsimp only
    rw [if_neg (by simpa [List.length_eq_zero] using hd)]
  · intro r hr
    simp only [normalize_embedding]
    rw [hr]
    rfl

/-- C2 witness: concrete instances of all four branches over `Int`. -/
theorem c2_shape_normalizer_witness :
    normalize_embedding (PyVal.arr [2] ([5, 7] : List Int)) = Except.ok [5, 7] ∧
    normalize_embedding (PyVal.arr [1, 2] ([5, 7] : List Int)) = Except.ok [5, 7] ∧
    normalize_embedding (PyVal.arr [2, 2] ([1, 2, 3, 4] : List Int)) = Except.ok [1, 2, 3, 4] ∧
    normalize_embedding (PyVal.arr [0] ([] : List Int)) =
      Except.error GatewayError.internalError :=
  ⟨by
    have h := (@c2_shape_normalizer Int).1 [5, 7] (by decide)
    simpa using h,
   (@c2_shape_normalizer Int).2.1 2 [5, 7] rfl (by decide),
   (@c2_shape_normalizer Int).2.2.1 [2, 2] [1, 2, 3, 4] (by decide) (by decide) (by decide),
   (@c2_shape_normalizer Int).2.2.2 (PyVal.arr [0] []) (by decide)⟩

/-- C3: for every input image, whenever the Stable Diffusion backend is
not initialized, or any step of the inpainting stage raises (ROI
computation, crop, resize, the backend invocation, compositing), the
pipeline returns the passthrough sentinel `none`; the model is a total
function, so no such failure is surfaced as an error to the caller. -/
theorem c3_inpaint_error_containment (env : InpaintEnv) (img : Img)
    (h : env.sdPipeline = false ∨ env.roiFault = true ∨ env.cropFault = true ∨
      env.resizeFault = true ∨ (∀ a b : Img, env.sdRun a b = Except.error ()) ∨
      env.composeFault = true) :
    (inpaint_people_from_image env img).result = none := by
  unfold inpaint_people_from_image
  by_cases he : (env.yoloMasks img).isEmpty = true
  · rw [if_pos he]
  · rw [if_neg he]
    by_cases hp : env.sdPipeline = true
    · rw [if_pos hp]
      rcases hs : sd_inner env img (pipelineMask env img) with ⟨e, inv⟩
      cases e with
      | error err => rfl
      | ok r =>
        cases r with
        | none => rfl
        | some comp =>
          exfalso
          have hsucc : (sd_inner env img (pipelineMask env img)).1 = Except.ok (some comp) := by
            rw [hs]
          obtain ⟨hr, hc, hz, hcp, x1, y1, x2, y2, o5, hroi, hrun, hcomp⟩ :=
            sd_inner_success env img (pipelineMask env img) comp hsucc
          rcases h with h | h | h | h | h | h
          · rw [hp] at h; cases h
          · rw [hr] at h; cases h
          · rw [hc] at h; cases h
          · rw [hz] at h; cases h
          · rw [h] at hrun; cases hrun
          · rw [hcp] at h; cases h
    · rw [if_neg hp]

/-- C3 witness: with a detection present but the crop step raising, the
pipeline degrades to the sentinel. -/
theorem c3_inpaint_error_containment_witness :
    (inpaint_people_from_image
      ⟨fun _ => [⟨4, 4, fun x y => if x = 1 ∧ y = 1 then 255 else 0⟩], false, true,
        fun _ _ => Except.error (), fun _ _ _ _ _ => 0, fun _ _ _ _ _ => 0,
        fun _ _ _ _ => 0, fun _ s _ => s, false, true, false, false⟩
      ⟨4, 4, fun x y => x + 10 * y⟩).result = none :=
  c3_inpaint_error_containment _ _ (Or.inr (Or.inr (Or.inl rfl)))

/-- C5: when detection yields no masks, or the composite mask has no
foreground pixel, the pipeline returns the sentinel without invoking the
Stable Diffusion backend. -/
theorem c5_empty_mask_short_circuit (env : InpaintEnv) (img : Img)
    (h : env.yoloMasks img = [] ∨ fgList (pipelineMask env img) = []) :
    (inpaint_people_from_image env img).result = none ∧
    (inpaint_people_from_image env img).sdInvoked = false := by
  unfold inpaint_people_from_image
  rcases h with h | h
  · rw [if_pos (by rw [h]; rfl)]
    exact ⟨rfl, rfl⟩
  · by_cases he : (env.yoloMasks img).isEmpty = true
    · rw [if_pos he]
      exact ⟨rfl, rfl⟩
    · rw [if_neg he]
      by_cases hp : env.sdPipeline = true
      · rw [if_pos hp]
        have hroi : computeROI (pipelineMask env img) img.w img.h = none := by
          unfold computeROI
          rw [h]
        rcases sd_inner_empty env img (pipelineMask env img) hroi with hs | hs <;>
          rw [hs] <;> exact ⟨rfl, rfl⟩
      · rw [if_neg hp]
        exact ⟨rfl, rfl⟩

/-- C5 witness: a YOLO stage that reports no masks short-circuits. -/
theorem c5_empty_mask_short_circuit_witness :
    (inpaint_people_from_image
      ⟨fun _ => [], false, true, fun _ _ => Except.error (), fun _ _ _ _ _ => 0,
        fun _ _ _ _ _ => 0, fun _ _ _ _ => 0, fun _ s _ => s, false, false, false, false⟩
      ⟨4, 4, fun x y => x + 10 * y⟩).result = none ∧
    (inpaint_people_from_image
      ⟨fun _ => [], false, true, fun _ _ => Except.error (), fun _ _ _ _ _ => 0,
        fun _ _ _ _ _ => 0, fun _ _ _ _ => 0, fun _ s _ => s, false, false, false, false⟩
      ⟨4, 4, fun x y => x + 10 * y⟩).sdInvoked = false :=
  c5_empty_mask_short_circuit _ _ (Or.inl rfl)

/-- C4: whenever inpainting succeeds, the composited output has exactly
the input's width and height, and every pixel strictly outside the padded
ROI rectangle is bit-identical to the input pixel. -/
theorem c4_inpaint_frame_effect (env : InpaintEnv) (img o : Img) (x1 y1 x2 y2 : Nat)
    (ho : (inpaint_people_from_image env img).result = some o)
    (hroi : computeROI (pipelineMask env img) img.w img.h = some (x1, y1, x2, y2)) :
    o.w = img.w ∧ o.h = img.h ∧
    ∀ x y, (x < x1 ∨ x2 ≤ x ∨ y < y1 ∨ y2 ≤ y) → o.pix x y = img.pix x y := by
  unfold inpaint_people_from_image at ho
  by_cases he : (env.yoloMasks img).isEmpty = true
  · rw [if_pos he] at ho; cases ho
  · rw [if_neg he] at ho
    by_cases hp : env.sdPipeline = true
    · rw [if_pos hp] at ho
      rcases hs : sd_inner env img (pipelineMask env img) with ⟨e, inv⟩
      rw [hs] at ho
      cases e with
      | error err => cases ho
      | ok r =>
        cases r with
        | none => cases ho
        | some comp =>
          have hco : comp = o := by
            dsimp only at ho
            exact Option.some.inj ho
          have hsucc : (sd_inner env img (pipelineMask env img)).1 = Except.ok (some comp) := by
            rw [hs]
          obtain ⟨hr, hc, hz, hcp, a1, b1, a2, b2, o5, hroi2, hrun, hcomp⟩ :=
            sd_inner_success env img (pipelineMask env img) comp hsucc
          rw [hroi] at hroi2
          have htup := Option.some.inj hroi2
          have ha1 : x1 = a1 := congrArg (fun t => t.1) htup
          have hb1 : y1 = b1 := congrArg (fun t => t.2.1) htup
          have ha2 : x2 = a2 := congrArg (fun t => t.2.2.1) htup
          have hb2 : y2 = b2 := congrArg (fun t => t.2.2.2) htup
          subst ha1; subst hb1; subst ha2; subst hb2
          have hcw : (pipelineMask env img).w = img.w := pipelineMask_w env img
          have hch : (pipelineMask env img).h = img.h := pipelineMask_h env img
          have hle := computeROI_le (pipelineMask env img) img.w img.h x1 y1 x2 y2 hcw hch hroi
          subst hco
          rw [hcomp]
          refine ⟨pasteAt_w _ _ _ _ _ _, pasteAt_h _ _ _ _ _ _, ?_⟩
          intro x y hxy
          refine pasteAt_outside _ _ _ _ _ _ _ _ ?_
          rw [resizeWith_w, resizeWith_h]
          omega
    · rw [if_neg hp] at ho; cases ho

/-- The fixed environment of the C4 witness run: one YOLO mask, the numpy
dilation path, no injected faults, and concrete resampling oracles. -/
def envOK : InpaintEnv :=
  ⟨fun _ => [⟨4, 4, fun x y => if x = 1 ∧ y = 1 then 255 else 0⟩], false, true,
    fun _ _ => Except.ok ⟨512, 512, fun _ _ => 7⟩, fun _ _ _ _ _ => 3,
    fun _ _ _ _ _ => 3, fun _ _ _ _ => 9, fun _ s _ => s, false, false, false, false⟩

/-- The fixed input image of the C4 witness run. -/
def imgC4 : Img := ⟨4, 4, fun x y => x + 10 * y⟩

/-- The image the C4 witness run composes. -/
def outC4 : Img := ((inpaint_people_from_image envOK imgC4).result).getD imgC4

/-- C4 witness: a complete successful run; the ROI on the 4 by 4 frame is
`(0, 0, 3, 3)`, the output keeps the frame size, and the pixel at `(3, 0)`
(strictly outside the ROI) is bit-identical to the input. -/
theorem c4_inpaint_frame_effect_witness :
    (inpaint_people_from_image envOK imgC4).result = some outC4 ∧
    computeROI (pipelineMask envOK imgC4) imgC4.w imgC4.h = some (0, 0, 3, 3) ∧
    outC4.w = 4 ∧ outC4.pix 3 0 = imgC4.pix 3 0 := by
  have h1 : (inpaint_people_from_image envOK imgC4).result = some outC4 := rfl
  have h2 : computeROI (pipelineMask envOK imgC4) imgC4.w imgC4.h = some (0, 0, 3, 3) := by
    decide
  have h := c4_inpaint_frame_effect envOK imgC4 outC4 0 0 3 3 h1 h2
  exact ⟨h1, h2, h.1, h.2.2 3 0 (Or.inr (Or.inl (le_refl 3)))⟩

/-- The all-foreground one-pixel mask. -/
def maskOne : Img := ⟨1, 1, fun _ _ => 255⟩

/-- A 9 by 9 mask with a single foreground pixel at `(4, 4)`. -/
def mask9 : Img := ⟨9, 9, fun x y => if x = 4 ∧ y = 4 then 255 else 0⟩

/-- C6 (amended): for every mask and every kernel size `k ≥ 1`, both the
cv2 path and the manual max-filter fallback never shrink the foreground
(`dilate(m, k) ⊇ m` and `dilate(dilate(m, k), k) ⊇ dilate(m, k)`), and
both paths produce only the values 0 and 255. -/
theorem c6_dilation_growing (m : Img) (k : Nat) (hk : 1 ≤ k) :
    (∀ x y, x < m.w → y < m.h → 0 < m.pix x y → (dilate_lib m k).pix x y = 255) ∧
    (∀ x y, x < m.w → y < m.h → 0 < m.pix x y → (dilate_fallback m k).pix x y = 255) ∧
    (∀ x y, x < m.w → y < m.h → 0 < (dilate_lib m k).pix x y →
      (dilate_lib (dilate_lib m k) k).pix x y = 255) ∧
    (∀ x y, x < m.w → y < m.h → 0 < (dilate_fallback m k).pix x y →
      (dilate_fallback (dilate_fallback m k) k).pix x y = 255) ∧
    (∀ x y, (dilate_lib m k).pix x y = 0 ∨ (dilate_lib m k).pix x y = 255) ∧
    (∀ x y, (dilate_fallback m k).pix x y = 0 ∨ (dilate_fallback m k).pix x y = 255) :=
  ⟨fun x y hx hy hp => dilate_lib_superset m k hk x y hx hy hp,
    fun x y hx hy hp => dilate_fallback_superset m k hk x y hx hy hp,
    fun x y hx hy hp => dilate_lib_superset (dilate_lib m k) k hk x y hx hy hp,
    fun x y hx hy hp => dilate_fallback_superset (dilate_fallback m k) k hk x y hx hy hp,
    fun x y => dilate_lib_binary m k x y,
    fun x y => dilate_fallback_binary m k x y⟩

/-- C6 counterexample: for kernel size 0 the fallback path's max-filter
loops are empty, so a foreground pixel of the input is background in the
output — the quantification over every kernel size fails at `k = 0`. -/
theorem c6_dilation_counterexample :
    0 < maskOne.pix 0 0 ∧ (dilate_fallback maskOne 0).pix 0 0 = 0 := ⟨by decide, by decide⟩

/-- C6 witness: for kernel size 3 both paths keep the foreground pixel of
`mask9`. -/
theorem c6_dilation_growing_witness :
    (1 : Nat) ≤ 3 ∧ (dilate_fallback mask9 3).pix 4 4 = 255 ∧
    (dilate_lib mask9 3).pix 4 4 = 255 :=
  ⟨by decide,
    (c6_dilation_growing mask9 3 (by decide)).2.1 4 4 (by decide) (by decide) (by decide),
    (c6_dilation_growing mask9 3 (by decide)).1 4 4 (by decide) (by decide) (by decide)⟩

/-- C7 (amended): for every non-empty composite mask on a `wI × hI` image
whose padding `int(0.12 * max(wI, hI))` is at least 1 (that is,
`max(wI, hI) ≥ 9`), the ROI is the tight foreground bounding box padded by
that amount on each side and clamped to the image, and it satisfies
`x1 < x2`, `y1 < y2` with all coordinates inside `[0, wI] × [0, hI]`. -/
theorem c7_roi_box (m : Img) (wI hI : Nat) (hw : m.w = wI) (hh : m.h = hI)
    (hne : fgList m ≠ []) (hpad : 1 ≤ roiPad wI hI) :
    computeROI m wI hI =
      some (listMin ((fgList m).map Prod.fst) - roiPad wI hI,
        listMin ((fgList m).map Prod.snd) - roiPad wI hI,
        min wI (listMax ((fgList m).map Prod.fst) + roiPad wI hI),
        min hI (listMax ((fgList m).map Prod.snd) + roiPad wI hI)) ∧
    listMin ((fgList m).map Prod.fst) - roiPad wI hI <
      min wI (listMax ((fgList m).map Prod.fst) + roiPad wI hI) ∧
    listMin ((fgList m).map Prod.snd) - roiPad wI hI <
      min hI (listMax ((fgList m).map Prod.snd) + roiPad wI hI) ∧
    min wI (listMax ((fgList m).map Prod.fst) + roiPad wI hI) ≤ wI ∧
    min hI (listMax ((fgList m).map Prod.snd) + roiPad wI hI) ≤ hI ∧
    listMin ((fgList m).map Prod.fst) - roiPad wI hI ≤ wI ∧
    listMin ((fgList m).map Prod.snd) - roiPad wI hI ≤ hI := by
  obtain ⟨p, hp⟩ : ∃ p, p ∈ fgList m := by
    cases hfg : fgList m with
    | nil => exact absurd hfg hne
    | cons q qs => exact ⟨q, List.mem_cons_self q qs⟩
  obtain ⟨hbx, hby, _⟩ := fgList_mem m p hp
  have hx : p.1 ∈ (fgList m).map Prod.fst := List.mem_map_of_mem Prod.fst hp
  have hy : p.2 ∈ (fgList m).map Prod.snd := List.mem_map_of_mem Prod.snd hp
  have h1 := listMin_le _ _ hx
  have h2 := le_listMax _ _ hx
  have h3 := listMin_le _ _ hy
  have h4 := le_listMax _ _ hy
  rw [hw] at hbx
  rw [hh] at hby
  refine ⟨computeROI_eq m wI hI hne, ?_, ?_, ?_, ?_, ?_, ?_⟩ <;> omega

/-- C7 counterexample: on a 1 by 1 image the padding
`int(0.12 * max(1, 1))` is 0 and the all-foreground mask produces the ROI
`(0, 0, 0, 0)`, which violates `x1 < x2`. -/
theorem c7_roi_counterexample :
    computeROI maskOne 1 1 = some (0, 0, 0, 0) ∧ ¬((0 : Nat) < 0) := ⟨by decide, by decide⟩

/-- C7 witness: the single-pixel mask on a 9 by 9 image has padding 1 and
ROI `(3, 3, 5, 5)`. -/
theorem c7_roi_box_witness :
    fgList mask9 ≠ [] ∧ 1 ≤ roiPad 9 9 ∧ computeROI mask9 9 9 = some (3, 3, 5, 5) := by
  refine ⟨by decide, by decide, ?_⟩
  have h := c7_roi_box mask9 9 9 rfl rfl (by decide) (by decide)
  exact h.1.trans (by decide)

/-- C8 counterexample: with DINOv2 loaded as the active (image-only)
backend and the GRPC client not connected, `/encode/text` is rejected with
exactly the same error value as when no embedding backend is loaded at
all, so the text endpoint's response does not let the caller distinguish
the two conditions. -/
theorem c8_text_error_counterexample :
    encode_text ⟨true, false, false⟩ (Except.error () : Except Unit (PyVal Int)) =
      Except.error GatewayError.clipServerNotConnected ∧
    encode_text ⟨false, false, false⟩ (Except.error () : Except Unit (PyVal Int)) =
      Except.error GatewayError.clipServerNotConnected := ⟨rfl, rfl⟩

/-- C8 (amended): whenever the GRPC client is not connected, every
text-encode request is rejected with the fixed `CLIP server not connected`
error, whose value is distinct from the image endpoints' no-backend error;
but the rejection is the same whether or not an image-only backend is
active, so the text endpoint alone does not distinguish "this backend
cannot encode text" from "no backend at all". -/
theorem c8_text_error_uniform (s : ProviderState) (r : Except Unit (PyVal Int))
    (h : s.clipClient = false) :
    encode_text s r = Except.error GatewayError.clipServerNotConnected ∧
    GatewayError.clipServerNotConnected ≠ GatewayError.noEmbeddingModel := by
  refine ⟨?_, by decide⟩
  unfold encode_text
  rw [if_pos h]

/-- C8 witness: the DINOv2-active, GRPC-disconnected state. -/
theorem c8_text_error_uniform_witness :
    (⟨true, false, false⟩ : ProviderState).clipClient = false ∧
    encode_text ⟨true, false, false⟩ (Except.ok (PyVal.num (0 : Int))) =
      Except.error GatewayError.clipServerNotConnected :=
  ⟨rfl, (c8_text_error_uniform ⟨true, false, false⟩ (Except.ok (PyVal.num 0)) rfl).1⟩

/-- C9: a detection is kept by `_get_yolo_person_masks` exactly when its
class is in the fixed allowlist (person, backpack, umbrella, handbag,
suitcase, cell phone, laptop, keyboard) and its confidence exceeds the
per-class threshold; the person threshold is 0.5, every other class's is
0.4, and 0.4 is strictly weaker than 0.5.  The older revision's
person-only filter keeps only detections that also satisfy this policy. -/
theorem c9_detection_filter :
    (∀ (ds : List Detection) (d : Detection),
      d ∈ yolo_kept_detections ds ↔
        d ∈ ds ∧ d.classId ∈ target_classes ∧ min_confidence d.classId < d.conf) ∧
    min_confidence 0 = 1 / 2 ∧
    (∀ c : Nat, c ≠ 0 → min_confidence c = 2 / 5) ∧
    (2 / 5 : ℚ) < 1 / 2 ∧
    (∀ (ds : List Detection) (d : Detection), d ∈ ds.filter yolo_keep_person_only →
      d.classId ∈ target_classes ∧ min_confidence d.classId < d.conf) := by
  refine ⟨?_, rfl, ?_, by norm_num, ?_⟩
  · intro ds d
    unfold yolo_kept_detections yolo_keep
    rw [List.mem_filter, Bool.and_eq_true, decide_eq_true_iff, decide_eq_true_iff]
  · intro c hc
    unfold min_confidence
    rw [if_neg hc]
  · intro ds d hd
    rw [List.mem_filter] at hd
    have hk := hd.2
    unfold yolo_keep_person_only at hk
    rw [Bool.and_eq_true, beq_iff_eq, decide_eq_true_iff] at hk
    obtain ⟨hcls, hconf⟩ := hk
    rw [hcls]
    refine ⟨by decide, ?_⟩
    unfold min_confidence
    rw [if_pos rfl]
    exact hconf

/-- C9 witness: a person detection with confidence 0.75 is kept. -/
theorem c9_detection_filter_witness :
    (⟨0, 3 / 4⟩ : Detection) ∈ yolo_kept_detections [⟨0, 3 / 4⟩] ∧ (2 / 5 : ℚ) < 1 / 2 :=
  ⟨(c9_detection_filter.1 [⟨0, 3 / 4⟩] ⟨0, 3 / 4⟩).mpr
      ⟨List.mem_singleton.mpr rfl, by decide, by norm_num [min_confidence]⟩,
    c9_detection_filter.2.2.2.1⟩

/-- C10: `/encode/preprocessed` delegates unchanged to
`/encode/inpainted`, so for every provider state, request environment and
uploaded bytes the two endpoints return the identical result — the same
embedding response on success and the same error on failure. -/
theorem c10_preprocessed_delegates {α : Type} (s : ProviderState) (env : HttpEnv α)
    (b : ImageBytes) :
    encode_image_preprocessed s env b = encode_image_inpainted s env b := rfl

end Gateway
